import Mathlib

/-!
Verification development for the amazon-sp-api SDK core: the background
credential refresher (`TokenUpdater`) and the generic call executor.

The Go source is embedded shallowly:
* Go strings are Lean `String`s (byte lists where percent-encoding matters);
* machine integers (unix timestamps, `expires_in`) are `Int`;
* nil-able pointers (`*atomic.Value`, `*atomic.Int64`, channels) are `Option`;
* a Go function that can return an error or fault with a nil-pointer
  dereference is modelled with `RunResult`;
* the HTTP exchange inside `fetchNewToken` is abstracted into a
  `FetchOutcome` describing what the network/parsing delivered.
-/

namespace SpApi

/-- Outcome of running a piece of Go code: a normal return value, a non-nil
`error` return, or a runtime fault (panic, e.g. nil-pointer dereference). -/
inductive RunResult (α : Type) where
  | ok (a : α)
  | err (e : String)
  | fault (msg : String)
  deriving Repr, DecidableEq

/-- The Go runtime message for dereferencing a nil pointer. -/
def nilDerefMsg : String :=
  "runtime error: invalid memory address or nil pointer dereference"

/-- Embeds `AccessTokenResponse` (part_000 lines 33-40): the parsed JSON body
of the token endpoint. -/
structure AccessTokenResponse where
  AccessToken : String
  RefreshToken : String
  ExpiresIn : Int
  TokenType : String
  Error : String
  ErrorDescription : String
  deriving Repr, DecidableEq

/-- Embeds `TokenUpdaterConfig` (part_000 lines 14-20). `QuitSignal` is a
nil-able channel, modelled as an optional channel identifier; the zero value
(field not set at a construction site) is `none`, i.e. a nil channel. -/
structure TokenUpdaterConfig where
  RefreshToken : String := ""
  ClientID : String := ""
  ClientSecret : String := ""
  QuitSignal : Option Nat := none
  deriving Repr, DecidableEq

/-- Embeds `TokenUpdater` (part_000 lines 26-32).

`accessToken` models the `*atomic.Value` field: the outer `Option` is the
pointer (none = nil pointer), the inner `Option String` is the value stored
in the cell (`none` = nothing ever stored, `atomic.Value.Load` returns a nil
interface). `ExpireTimestamp` models the `*atomic.Int64` field likewise. -/
structure TokenUpdater where
  accessToken : Option (Option String)
  ExpireTimestamp : Option Int
  config : TokenUpdaterConfig
  quitSignal : Option Nat
  deriving Repr, DecidableEq

/-- What the HTTP POST + body read + JSON unmarshal inside `fetchNewToken`
delivered, abstracting the network (part_000 lines 89-112). -/
inductive FetchOutcome where
  | httpErr (e : String)
  | readErr (e : String)
  | parseErr (body : String)
  | parsed (r : AccessTokenResponse)
  deriving Repr, DecidableEq

/-- Embeds `fetchNewToken` (part_000 lines 81-120), given the outcome `o` of
the HTTP exchange and the current unix time `now`.

On a parsed response with a non-empty access token the Go code calls
`t.accessToken.Swap` and then `t.ExpireTimestamp.Swap`; if either pointer
field is nil this dereferences nil and faults. On an empty access token it
skips the swaps and returns nil (line 119). -/
def fetchNewToken (t : TokenUpdater) (now : Int) (o : FetchOutcome) :
    RunResult TokenUpdater :=
  match o with
  | .httpErr e => .err e
  | .readErr e => .err e
  | .parseErr body => .err ("RefreshToken response parse failed. Body: " ++ body)
  | .parsed r =>
    if r.AccessToken ≠ "" then
      match t.accessToken with
      | none => .fault nilDerefMsg
      | some _ =>
        match t.ExpireTimestamp with
        | none => .fault nilDerefMsg
        | some _ =>
          .ok { t with
                accessToken := some (some r.AccessToken),
                ExpireTimestamp := some (now + r.ExpiresIn) }
    else .ok t

/-- The struct literal built at part_000 lines 43-47: `accessToken` and
`ExpireTimestamp` are not listed, so they keep their zero value — a nil
pointer, `none`. -/
def initialUpdater (config : TokenUpdaterConfig) : TokenUpdater :=
  { accessToken := none
    ExpireTimestamp := none
    config := config
    quitSignal := config.QuitSignal }

/-- Embeds `NewTokenUpdater` (part_000 lines 42-52): builds the struct
literal (which leaves `accessToken` and `ExpireTimestamp` as zero-valued,
i.e. nil, pointers), runs one fetch, and wraps a fetch error. A Go return of
`(nil, err)` is modelled as `RunResult.err`. -/
def NewTokenUpdater (config : TokenUpdaterConfig) (now : Int)
    (o : FetchOutcome) : RunResult TokenUpdater :=
  match fetchNewToken (initialUpdater config) now o with
  | .err e => .err ("accesstoken could not be fetched: " ++ e)
  | .fault m => .fault m
  | .ok t₁ => .ok t₁

/-- Embeds Go `fmt.Sprintf("%v", x)` for the interface value loaded from an
`atomic.Value`: a nil interface prints as the literal string below. -/
def sprintfV : Option String → String
  | none => "<nil>"
  | some s => s

/-- Embeds `GetAccessToken` (part_000 lines 77-79): loads from the
`accessToken` atomic cell (faulting if the pointer is nil) and formats the
loaded interface value with `%v`. -/
def GetAccessToken (t : TokenUpdater) : RunResult String :=
  match t.accessToken with
  | none => .fault nilDerefMsg
  | some v => .ok (sprintfV v)

/-- Embeds `secondsUntilExpired` (part_000 lines 122-125) with the current
time passed explicitly. -/
def secondsUntilExpired (unixTimestamp : Int) (now : Int) : Int :=
  unixTimestamp - now

/-- What one iteration of the `checkAccessToken` loop body did. -/
inductive LoopAction where
  | stop
  | sleep (secs : Int)
  | fetched (logged : Option String)
  | faulted (msg : String)
  deriving Repr, DecidableEq

/-- Whether the `select` receive on `t.quitSignal` is ready: `delivered c`
says a stop value has been sent on channel `c`. A receive on a nil channel
(`t.quitSignal = none`) is never ready, so `select` takes its `default`
branch forever. -/
def quitReady (t : TokenUpdater) (delivered : Nat → Bool) : Bool :=
  match t.quitSignal with
  | none => false
  | some c => delivered c

/-- Embeds one iteration of `checkAccessToken` (part_000 lines 58-75).
`delta` stands for `int64(ExpiryDelta.Seconds())` (the constant `ExpiryDelta`
is declared elsewhere in the repository); `ready` is whether the quit receive
is ready; `o` is the HTTP outcome the fetch would see. Returns the action
taken and the updater state after the iteration. -/
def checkAccessTokenStep (t : TokenUpdater) (now : Int) (ready : Bool)
    (o : FetchOutcome) (delta : Int) : LoopAction × TokenUpdater :=
  if ready then (.stop, t)
  else
    match t.ExpireTimestamp with
    | none => (.faulted nilDerefMsg, t)
    | some e =>
      let secondsToWait := secondsUntilExpired e now
      if secondsToWait ≤ delta then
        match fetchNewToken t now o with
        | .err m => (.fetched (some m), t)
        | .fault m => (.faulted m, t)
        | .ok t₁ => (.fetched none, t₁)
      else
        (.sleep (secondsToWait - delta), t)

/-- Embeds `Config` (second document in model.go, lines 158-168), keeping the
fields the token updater consumes. -/
structure ClientConfig where
  ClientID : String := ""
  ClientSecret : String := ""
  RefreshToken : String := ""
  deriving Repr, DecidableEq

/-- Embeds `SellingPartnerClient` (model.go document 2, lines 170-173): holds
the quit channel that `Close` sends on. -/
structure SellingPartnerClient where
  quitSignal : Option Nat
  deriving Repr, DecidableEq

/-- Embeds `NewSellingPartnerClient` (model.go document 2, lines 180-215) up
to the token updater wiring: it makes a fresh quit channel (id 0), but the
`TokenUpdaterConfig` literal it passes to `NewTokenUpdater` sets only
`RefreshToken`, `ClientID`, `ClientSecret` and `Logger` — `QuitSignal` is
left at its zero value (nil). The HTTP-client wiring is irrelevant to the
claims and elided. -/
def NewSellingPartnerClient (config : ClientConfig) (now : Int)
    (o : FetchOutcome) : RunResult (SellingPartnerClient × TokenUpdater) :=
  let quitSignal : Option Nat := some 0
  let cfg : TokenUpdaterConfig :=
    { RefreshToken := config.RefreshToken
      ClientID := config.ClientID
      ClientSecret := config.ClientSecret }
  match NewTokenUpdater cfg now o with
  | .err e => .err e
  | .fault m => .fault m
  | .ok t => .ok ({ quitSignal := quitSignal }, t)

/-- Embeds `Close` (model.go document 2, lines 176-178): sends `true` on the
client's `quitSignal` channel. The delivered-set after `Close` marks exactly
that channel. -/
def closeDelivers (s : SellingPartnerClient) : Nat → Bool :=
  fun c => decide (s.quitSignal = some c)

/-! ### The token/expiry publication protocol (claim C1)

`fetchNewToken` publishes a new token and expiry with two separate atomic
operations, `t.accessToken.Swap(...)` at line 114 and then
`t.ExpireTimestamp.Swap(...)` at line 117.  To reason about what a concurrent
reader can observe between those two operations we model the cell contents
as a pair and the publication as the explicit two-step sequence from the
source. -/

/-- The contents of the two atomic cells, as a concurrent reader snapshots
them. -/
structure TokenState where
  token : Option String
  expiry : Int
  deriving Repr, DecidableEq

/-- The write sequence of `fetchNewToken` lines 114-117: first the token
cell is swapped, then the expiry cell. -/
def publishSteps (newTok : String) (newExp : Int) :
    List (TokenState → TokenState) :=
  [fun s => { s with token := some newTok },
   fun s => { s with expiry := newExp }]

/-- The cell contents after the writer has executed the first `k` steps of
the publication sequence. A reader running concurrently with the writer
snapshots one of these states. -/
def stateAfter (s₀ : TokenState) (newTok : String) (newExp : Int)
    (k : Nat) : TokenState :=
  ((publishSteps newTok newExp).take k).foldl (fun s f => f s) s₀

/-! ### Instrumented fetch counting (claim C5)

To state that `NewTokenUpdater` performs exactly one fetch, the HTTP
exchange is drawn from an oracle indexed by the number of fetches performed
so far, and a counter records each call of `fetchNewToken`. -/

/-- The network as seen by successive fetches: `oracle n` is what the
`n`-th fetch (0-based) would observe; `calls` counts fetches performed. -/
structure World where
  oracle : Nat → FetchOutcome
  calls : Nat

/-- Performing one HTTP exchange: consumes the next oracle entry and bumps
the fetch counter. -/
def doFetch (w : World) : FetchOutcome × World :=
  (w.oracle w.calls, { w with calls := w.calls + 1 })

/-- Embeds `fetchNewToken` against the instrumented world. -/
def fetchNewTokenW (t : TokenUpdater) (now : Int) (w : World) :
    RunResult TokenUpdater × World :=
  let p := doFetch w
  (fetchNewToken t now p.1, p.2)

/-- Embeds `NewTokenUpdater` (part_000 lines 42-52) against the instrumented
world: the single `t.fetchNewToken()` call at line 48 is the only fetch. -/
def NewTokenUpdaterW (config : TokenUpdaterConfig) (now : Int) (w : World) :
    RunResult TokenUpdater × World :=
  match fetchNewTokenW (initialUpdater config) now w with
  | (.err e, w₁) => (.err ("accesstoken could not be fetched: " ++ e), w₁)
  | (.fault m, w₁) => (.fault m, w₁)
  | (.ok t₁, w₁) => (.ok t₁, w₁)

/-- Whether a `RunResult` is a non-nil Go error return. -/
def RunResult.isErr {α : Type} : RunResult α → Bool
  | .err _ => true
  | _ => false

/-! ### Call executor (claims C8, C9)

The executor itself (`apis/caller.go`: `NewCall`, `call.Execute`, the URL
composition) is not among the provided source files — only its test,
`apis/caller_test.go`, is. Following the task of checking the spec against
the repository, the missing executor is modelled from the spec (sections
4.1 and 8) and its definitions carry `Modelled from the spec` markers.
Go strings and bodies are byte lists here because percent-encoding operates
on bytes. -/

/-- A Go string / HTTP body as its byte sequence. -/
abbrev ByteStr := List Nat

/-- Embeds `Error` (model.go lines 138-145): one structured API error. -/
structure Error where
  Code : String
  Message : String
  Details : Option String
  deriving Repr, DecidableEq

/-- Embeds `ErrorList` (model.go lines 148-150). -/
structure ErrorList where
  Errors : List Error
  deriving Repr, DecidableEq

/-- Embeds `CallResponse[T]` (used throughout caller_test.go): two optional
fields, the decoded success payload and the decoded error list. -/
structure CallResponse (T : Type) where
  ResponseBody : Option T := none
  ErrorList : Option ErrorList := none

/-- What `transport.Do(request)` produced: a transport-level error, or a
response with a status code and a raw body. -/
inductive TransportResult where
  | transportErr (e : String)
  | resp (status : Nat) (body : ByteStr)

/-- Modelled from the spec: `call.Execute` steps 4-7 (spec section 4.1) —
the decoding half of the executor, which is not among the provided sources.
A transport error is returned immediately as a hard error.  A 2xx status
with a non-empty body is JSON-decoded into `T` (a decode failure is a hard
error); an empty 2xx body leaves the response unset.  A non-2xx status is
decoded into `ErrorList` when error-parsing is enabled, and is a generic
hard error otherwise.  JSON decoding is abstracted into the `decodeT` /
`decodeE` parameters. -/
def Execute (T : Type) (parseErrListOnError : Bool) (tr : TransportResult)
    (decodeT : ByteStr → Option T) (decodeE : ByteStr → Option ErrorList) :
    Except String (CallResponse T) :=
  match tr with
  | .transportErr e => .error e
  | .resp status body =>
    if 200 ≤ status ∧ status < 300 then
      if body = [] then .ok {}
      else
        match decodeT body with
        | some v => .ok { ResponseBody := some v }
        | none => .error "response body unmarshal failed"
    else
      if parseErrListOnError then
        match decodeE body with
        | some l => .ok { ErrorList := some l }
        | none => .error "error list unmarshal failed"
      else .error ("received HTTP status code " ++ toString status)

/-! ### URL composition (claim C9) -/

/-- Bytes kept verbatim by query escaping: the unreserved alphabet
`A-Z a-z 0-9 - . _ ~` of Go's `url.QueryEscape`. -/
def isUnreservedQueryByte (b : Nat) : Bool :=
  decide ((48 ≤ b ∧ b ≤ 57) ∨ (65 ≤ b ∧ b ≤ 90) ∨ (97 ≤ b ∧ b ≤ 122) ∨
    b = 45 ∨ b = 46 ∨ b = 95 ∨ b = 126)

/-- Upper-case hex digit of a nibble. -/
def hexDigitUpper (n : Nat) : Nat :=
  if n < 10 then 48 + n else 55 + n

/-- Percent-escaping of one byte, as Go's `url.QueryEscape` does for query
components: space becomes `+`, unreserved bytes stay, everything else
becomes `%HH`. -/
def escByte (b : Nat) : ByteStr :=
  if b = 32 then [43]
  else if isUnreservedQueryByte b then [b]
  else [37, hexDigitUpper (b / 16), hexDigitUpper (b % 16)]

/-- Percent-escaping of a whole query component. -/
def queryEscape (s : ByteStr) : ByteStr :=
  s.flatMap escByte

/-- One encoded `key=value` pair (61 is `=`). -/
def encodePair (kv : ByteStr × ByteStr) : ByteStr :=
  queryEscape kv.1 ++ 61 :: queryEscape kv.2

/-- Modelled from the spec: the query string of `call.Execute` step 1 (spec
sections 4.1 and 8) — the supplied key/value pairs, each percent-encoded as
`key=value`, joined by `&` (38) in insertion order. -/
def encodeQuery : List (ByteStr × ByteStr) → ByteStr
  | [] => []
  | [kv] => encodePair kv
  | kv :: rest => encodePair kv ++ 38 :: encodeQuery rest

/-- Modelled from the spec: `call.Execute` step 1 — the base URL from
`transport.GetEndpoint()` joined with the call's path, with `?` (63) and
the encoded query appended exactly when query parameters are present. -/
def composeURL (base path : ByteStr) (params : List (ByteStr × ByteStr)) :
    ByteStr :=
  if params.isEmpty then base ++ path
  else base ++ path ++ 63 :: encodeQuery params

/-- Value of a hex-digit byte. -/
def hexVal (b : Nat) : Nat :=
  if 48 ≤ b ∧ b ≤ 57 then b - 48
  else if 65 ≤ b ∧ b ≤ 70 then b - 55
  else if 97 ≤ b ∧ b ≤ 102 then b - 87
  else 0

/-- Inverse of `queryEscape`: `+` back to space, `%HH` back to the byte,
anything else kept. -/
def unescapeQuery : ByteStr → Option ByteStr
  | [] => some []
  | 43 :: rest => (unescapeQuery rest).map (fun s => 32 :: s)
  | 37 :: h :: l :: rest => (unescapeQuery rest).map (fun s => (hexVal h * 16 + hexVal l) :: s)
  | 37 :: _ => none
  | b :: rest => (unescapeQuery rest).map (fun s => b :: s)

/-- Splits a byte string at every occurrence of `sep`; always returns at
least one (possibly empty) segment. -/
def splitOnByte (sep : Nat) : ByteStr → List ByteStr
  | [] => [[]]
  | b :: rest =>
    if b = sep then [] :: splitOnByte sep rest
    else
      match splitOnByte sep rest with
      | [] => [[b]]
      | s :: ss => (b :: s) :: ss

/-- Splits one query segment at its first `=` (61). -/
def splitPairOnEq : ByteStr → ByteStr × ByteStr
  | [] => ([], [])
  | b :: rest =>
    if b = 61 then ([], rest)
    else
      let p := splitPairOnEq rest
      (b :: p.1, p.2)

/-- Decodes one `key=value` segment. -/
def parsePair (s : ByteStr) : Option (ByteStr × ByteStr) :=
  let p := splitPairOnEq s
  match unescapeQuery p.1, unescapeQuery p.2 with
  | some k, some v => some (k, v)
  | _, _ => none

/-- Decodes a list of `key=value` segments. -/
def parseSegments : List ByteStr → Option (List (ByteStr × ByteStr))
  | [] => some []
  | s :: ss =>
    match parsePair s, parseSegments ss with
    | some kv, some rest => some (kv :: rest)
    | _, _ => none

/-- Decodes a whole query string back into its key/value pairs, in the
order they appear. -/
def parseQuery (s : ByteStr) : Option (List (ByteStr × ByteStr)) :=
  parseSegments (splitOnByte 38 s)

/-- All bytes of all keys and values are bytes (< 256). -/
def paramsWF (params : List (ByteStr × ByteStr)) : Prop :=
  ∀ kv ∈ params, (∀ b ∈ kv.1, b < 256) ∧ (∀ b ∈ kv.2, b < 256)

/-- The bytes of a Lean string, for concrete URL examples. -/
def strBytes (s : String) : ByteStr :=
  s.data.map Char.toNat

/-! ## Helper lemmas -/

/-- A parsed token response with an empty access token skips both swaps and
returns nil (part_000 lines 113-119). -/
theorem fetchNewToken_empty_token (t : TokenUpdater) (now : Int)
    (r : AccessTokenResponse) (h : r.AccessToken = "") :
    fetchNewToken t now (.parsed r) = .ok t := by
  simp [fetchNewToken, h]

/-- With a nil `accessToken` cell, storing a non-empty token dereferences
nil at the `Swap` on part_000 line 114. -/
theorem fetchNewToken_nil_cell_fault (t : TokenUpdater) (now : Int)
    (r : AccessTokenResponse) (ha : t.accessToken = none)
    (h : r.AccessToken ≠ "") :
    fetchNewToken t now (.parsed r) = .fault nilDerefMsg := by
  simp [fetchNewToken, h, ha]

/-- Hex digits round-trip on nibbles. -/
theorem hexVal_hexDigitUpper (n : Nat) (h : n < 16) :
    hexVal (hexDigitUpper n) = n := by
  unfold hexVal hexDigitUpper
  split_ifs <;> omega

/-- Unescaping undoes the escaping of one byte, whatever follows. -/
theorem unescapeQuery_escByte (b : Nat) (hb : b < 256) (t r : ByteStr)
    (ht : unescapeQuery t = some r) :
    unescapeQuery (escByte b ++ t) = some (b :: r) := by
  unfold escByte
  split_ifs with h32 hun
  · subst h32
    simp [unescapeQuery, ht]
  · simp only [isUnreservedQueryByte, decide_eq_true_eq] at hun
    have hb43 : ¬ b = 43 := by omega
    have hb37 : ¬ b = 37 := by omega
    simp [unescapeQuery, ht, hb43, hb37]
  · have h1 : b / 16 < 16 := by omega
    have h2 : b % 16 < 16 := by omega
    simp [unescapeQuery, ht, hexVal_hexDigitUpper (b / 16) h1,
      hexVal_hexDigitUpper (b % 16) h2]
    omega

/-- Unescaping undoes query escaping. -/
theorem unescapeQuery_queryEscape (s : ByteStr) (h : ∀ b ∈ s, b < 256) :
    unescapeQuery (queryEscape s) = some s := by
  induction s with
  | nil => rfl
  | cons b s ih =>
    have hb : b < 256 := h b (List.mem_cons_self b s)
    have hs : ∀ x ∈ s, x < 256 := fun x hx => h x (List.mem_cons_of_mem b hx)
    have := unescapeQuery_escByte b hb (queryEscape s) s (ih hs)
    simpa [queryEscape] using this

/-- Escaped bytes never contain the separators `&` (38) or `=` (61). -/
theorem escByte_ne_sep (b x : Nat) (hx : x ∈ escByte b) : x ≠ 38 ∧ x ≠ 61 := by
  unfold escByte at hx
  split_ifs at hx with h32 hun
  · simp at hx
    omega
  · simp at hx
    subst hx
    simp only [isUnreservedQueryByte, decide_eq_true_eq] at hun
    omega
  · simp [hexDigitUpper] at hx
    constructor <;> rcases hx with rfl | rfl | rfl <;> (try split_ifs) <;> omega

/-- Query escaping never emits `&` or `=`. -/
theorem queryEscape_ne_sep (s : ByteStr) (x : Nat) (hx : x ∈ queryEscape s) :
    x ≠ 38 ∧ x ≠ 61 := by
  unfold queryEscape at hx
  rw [List.mem_flatMap] at hx
  obtain ⟨b, _, hxb⟩ := hx
  exact escByte_ne_sep b x hxb

/-- An encoded pair never contains `&`. -/
theorem encodePair_ne_38 (kv : ByteStr × ByteStr) (x : Nat)
    (hx : x ∈ encodePair kv) : x ≠ 38 := by
  unfold encodePair at hx
  rcases List.mem_append.1 hx with h | h
  · exact (queryEscape_ne_sep _ _ h).1
  · rcases List.mem_cons.1 h with rfl | h
    · omega
    · exact (queryEscape_ne_sep _ _ h).1

/-- Splitting a separator-free string yields the single segment. -/
theorem splitOnByte_of_ne (sep : Nat) (s : ByteStr) (h : ∀ x ∈ s, x ≠ sep) :
    splitOnByte sep s = [s] := by
  induction s with
  | nil => rfl
  | cons b s ih =>
    have hb : ¬ b = sep := h b (List.mem_cons_self b s)
    have hs : ∀ x ∈ s, x ≠ sep := fun x hx => h x (List.mem_cons_of_mem b hx)
    simp [splitOnByte, hb, ih hs]

/-- Splitting recovers the first separator-free segment. -/
theorem splitOnByte_append (sep : Nat) (s t : ByteStr) (h : ∀ x ∈ s, x ≠ sep) :
    splitOnByte sep (s ++ sep :: t) = s :: splitOnByte sep t := by
  induction s with
  | nil => simp [splitOnByte]
  | cons b s ih =>
    have hb : ¬ b = sep := h b (List.mem_cons_self b s)
    have hs : ∀ x ∈ s, x ≠ sep := fun x hx => h x (List.mem_cons_of_mem b hx)
    simp [splitOnByte, hb, ih hs]

/-- Splitting at `=` recovers an `=`-free key and its value. -/
theorem splitPairOnEq_append (k v : ByteStr) (h : ∀ x ∈ k, x ≠ 61) :
    splitPairOnEq (k ++ 61 :: v) = (k, v) := by
  induction k with
  | nil => simp [splitPairOnEq]
  | cons b k ih =>
    have hb : ¬ b = 61 := h b (List.mem_cons_self b k)
    have hs : ∀ x ∈ k, x ≠ 61 := fun x hx => h x (List.mem_cons_of_mem b hx)
    simp [splitPairOnEq, hb, ih hs]

/-- Decoding undoes the encoding of one pair. -/
theorem parsePair_encodePair (kv : ByteStr × ByteStr)
    (h1 : ∀ b ∈ kv.1, b < 256) (h2 : ∀ b ∈ kv.2, b < 256) :
    parsePair (encodePair kv) = some kv := by
  unfold parsePair encodePair
  rw [splitPairOnEq_append (queryEscape kv.1) (queryEscape kv.2)
    (fun x hx => (queryEscape_ne_sep kv.1 x hx).2)]
  simp [unescapeQuery_queryEscape kv.1 h1, unescapeQuery_queryEscape kv.2 h2]

/-- Decoding undoes the encoding of a whole query string. -/
theorem parseQuery_encodeQuery (params : List (ByteStr × ByteStr))
    (hne : params ≠ []) (hwf : paramsWF params) :
    parseQuery (encodeQuery params) = some params := by
  induction params with
  | nil => cases hne rfl
  | cons kv rest ih =>
    have hkv := hwf kv (List.mem_cons_self kv rest)
    have hrest : paramsWF rest := fun p hp => hwf p (List.mem_cons_of_mem kv hp)
    rcases rest with _ | ⟨kv₂, rest₂⟩
    · unfold parseQuery encodeQuery
      rw [splitOnByte_of_ne 38 (encodePair kv)
        (fun x hx => encodePair_ne_38 kv x hx)]
      simp [parseSegments, parsePair_encodePair kv hkv.1 hkv.2]
    · have henc : encodeQuery (kv :: kv₂ :: rest₂) =
          encodePair kv ++ 38 :: encodeQuery (kv₂ :: rest₂) := rfl
      have ih₂ := ih (by simp) hrest
      unfold parseQuery at ih₂ ⊢
      rw [henc, splitOnByte_append 38 (encodePair kv) (encodeQuery (kv₂ :: rest₂))
        (fun x hx => encodePair_ne_38 kv x hx)]
      simp [parseSegments, parsePair_encodePair kv hkv.1 hkv.2, ih₂]

/-! ## Claim theorems -/

/-- Claim C1, counterexample. The claim says a concurrent reader observes
either the complete previous (token, expiry) pair or the complete new pair.
Starting from the published pair (token "old", expiry 100), after the writer
has executed only the first of the two swaps of `fetchNewToken` (the
`accessToken.Swap` at line 114 but not yet the `ExpireTimestamp.Swap` at
line 117), a reader snapshots (token "new", expiry 100) — neither the old
pair nor the new pair. -/
theorem c1_counterexample :
    stateAfter ⟨some "old", 100⟩ "new" 200 1 = ⟨some "new", 100⟩ ∧
    decide (stateAfter ⟨some "old", 100⟩ "new" 200 1 = ⟨some "old", 100⟩) = false ∧
    decide (stateAfter ⟨some "old", 100⟩ "new" 200 1 = ⟨some "new", 200⟩) = false := by
  refine ⟨rfl, ?_, ?_⟩ <;> decide

/-- Claim C1, amended. Each field separately is swapped atomically, so at
every point of the publication sequence a reader sees, per field, either
the old value or the new value — single-field reads are never torn; the
joint pair guarantee of the original claim does not hold (see the
counterexample: after step 1 the new token is paired with the old expiry). -/
theorem c1_per_field_publication (s₀ : TokenState) (nt : String) (nExp : Int)
    (k : Nat) :
    ((stateAfter s₀ nt nExp k).token = s₀.token ∨
      (stateAfter s₀ nt nExp k).token = some nt) ∧
    ((stateAfter s₀ nt nExp k).expiry = s₀.expiry ∨
      (stateAfter s₀ nt nExp k).expiry = nExp) := by
  rcases k with _ | _ | k <;> simp [stateAfter, publishSteps]

/-- Claim C2, counterexample. For the token-endpoint response with empty
`access_token` and error description "bad grant", `fetchNewToken` leaves
the state unchanged but returns `nil` (modelled `.ok`), not a non-nil
error: lines 113-118 only guard the swaps, and line 119 returns nil
unconditionally, discarding the parsed `ErrorDescription`. -/
theorem c2_counterexample :
    fetchNewToken ⟨none, none, {}, none⟩ 1000
        (.parsed ⟨"", "", 0, "", "invalid_grant", "bad grant"⟩) =
      .ok ⟨none, none, {}, none⟩ ∧
    (fetchNewToken ⟨none, none, {}, none⟩ 1000
        (.parsed ⟨"", "", 0, "", "invalid_grant", "bad grant"⟩)).isErr = false := by
  exact ⟨rfl, rfl⟩

/-- Claim C2, amended. For every token-endpoint response whose access_token
field is empty, `fetchNewToken` leaves the previously published token and
expiry unchanged but returns a nil error; the parsed error description is
discarded, not surfaced. -/
theorem c2_empty_token_silent (t : TokenUpdater) (now : Int)
    (r : AccessTokenResponse) (h : r.AccessToken = "") :
    fetchNewToken t now (.parsed r) = .ok t ∧
    (fetchNewToken t now (.parsed r)).isErr = false := by
  rw [fetchNewToken_empty_token t now r h]
  exact ⟨rfl, rfl⟩

/-- Claim C2 amended, witness at a concrete response. -/
theorem c2_empty_token_silent_witness :
    (⟨"", "", 0, "", "invalid_grant", "desc"⟩ : AccessTokenResponse).AccessToken = "" ∧
    (fetchNewToken ⟨none, none, {}, none⟩ 5
        (.parsed ⟨"", "", 0, "", "invalid_grant", "desc"⟩) =
      .ok ⟨none, none, {}, none⟩ ∧
    (fetchNewToken ⟨none, none, {}, none⟩ 5
        (.parsed ⟨"", "", 0, "", "invalid_grant", "desc"⟩)).isErr = false) :=
  ⟨rfl, c2_empty_token_silent ⟨none, none, {}, none⟩ 5 _ rfl⟩

/-- Claim C3, code bug. `NewTokenUpdater` (lines 42-52) never allocates the
`accessToken` and `ExpireTimestamp` pointer cells, so they stay nil: the
initial fetch's token store (`accessToken.Swap`, line 114) faults on any
response with a non-empty access token; `GetAccessToken`'s load (line 78)
and the loop's `ExpireTimestamp.Load` (line 65) fault on the state the
constructor builds. -/
theorem c3_cells_never_initialized :
    NewTokenUpdater {} 1000 (.parsed ⟨"token-A", "", 3600, "bearer", "", ""⟩) =
      .fault nilDerefMsg ∧
    GetAccessToken ⟨none, none, {}, none⟩ = .fault nilDerefMsg ∧
    (checkAccessTokenStep ⟨none, none, {}, none⟩ 1000 false (.httpErr "x") 300).1 =
      .faulted nilDerefMsg := by
  exact ⟨rfl, rfl, rfl⟩

/-- Claim C4, code bug. Whenever the initial fetch delivers a non-empty
access token — the claim's notion of a successful construction —
`NewTokenUpdater` faults with a nil-pointer dereference while storing the
token, so no construction ever completes in which `GetAccessToken` could
return the fetched token. -/
theorem c4_construction_faults_on_token (config : TokenUpdaterConfig)
    (now : Int) (r : AccessTokenResponse) (h : r.AccessToken ≠ "") :
    NewTokenUpdater config now (.parsed r) = .fault nilDerefMsg := by
  unfold NewTokenUpdater
  rw [fetchNewToken_nil_cell_fault (initialUpdater config) now r rfl h]

/-- Claim C4, witness at the failing input. -/
theorem c4_construction_faults_on_token_witness :
    (⟨"token-B", "", 900, "bearer", "", ""⟩ : AccessTokenResponse).AccessToken ≠ "" ∧
    NewTokenUpdater {} 42 (.parsed ⟨"token-B", "", 900, "bearer", "", ""⟩) =
      .fault nilDerefMsg :=
  ⟨by decide, c4_construction_faults_on_token {} 42 _ (by decide)⟩

/-- Claim C5. `NewTokenUpdater` performs exactly one synchronous fetch
(the instrumented call counter advances by exactly one), errors exactly
when that single fetch errors — returning the Go pair `(nil, err)`,
modelled `.err` — and wraps the fetch error with the initialization
message; the failed fetch is not retried (the result depends only on
oracle entry `w.calls`, and the counter rules out a second fetch). -/
theorem c5_one_fetch_error_iff (config : TokenUpdaterConfig) (now : Int)
    (w : World) :
    (NewTokenUpdaterW config now w).2.calls = w.calls + 1 ∧
    (NewTokenUpdaterW config now w).2.oracle = w.oracle ∧
    (NewTokenUpdaterW config now w).1.isErr =
      (fetchNewToken (initialUpdater config) now (w.oracle w.calls)).isErr ∧
    (∀ e, fetchNewToken (initialUpdater config) now (w.oracle w.calls) = .err e →
      (NewTokenUpdaterW config now w).1 =
        .err ("accesstoken could not be fetched: " ++ e)) := by
  rcases hf : fetchNewToken (initialUpdater config) now (w.oracle w.calls)
    with a | e | m <;>
    simp [NewTokenUpdaterW, fetchNewTokenW, doFetch, hf, RunResult.isErr]

/-- Claim C5, witness: with the network failing once, construction performs
the single fetch and returns the wrapped error. -/
theorem c5_one_fetch_error_iff_witness :
    fetchNewToken (initialUpdater {}) 0
        ((World.mk (fun _ => .httpErr "boom") 0).oracle
          (World.mk (fun _ => .httpErr "boom") 0).calls) = .err "boom" ∧
    (NewTokenUpdaterW {} 0 (World.mk (fun _ => .httpErr "boom") 0)).2.calls =
      (World.mk (fun _ => .httpErr "boom") 0).calls + 1 ∧
    (NewTokenUpdaterW {} 0 (World.mk (fun _ => .httpErr "boom") 0)).1 =
      .err ("accesstoken could not be fetched: " ++ "boom") :=
  ⟨rfl, (c5_one_fetch_error_iff {} 0 (World.mk (fun _ => .httpErr "boom") 0)).1,
    (c5_one_fetch_error_iff {} 0 (World.mk (fun _ => .httpErr "boom") 0)).2.2.2
      "boom" rfl⟩

/-- Claim C6, code bug. `NewSellingPartnerClient` (model.go document 2)
makes a quit channel for the client but passes a `TokenUpdaterConfig`
without setting `QuitSignal`, so the updater's channel is nil: the
constructed pair is the client holding channel 0 and an updater holding
`none`; the loop's receive is never ready, whatever channels `Close` (or
anyone) delivers on — even though `Close` does deliver on channel 0 — and
every iteration takes the non-stop branch (here the `faulted` action, the
nil `ExpireTimestamp` load; in no case the `stop` action). -/
theorem c6_close_cannot_stop_loop :
    NewSellingPartnerClient {} 0 (.parsed ⟨"", "", 0, "", "", ""⟩) =
      .ok ({ quitSignal := some 0 }, ⟨none, none, {}, none⟩) ∧
    closeDelivers { quitSignal := some 0 } 0 = true ∧
    (∀ d, quitReady ⟨none, none, {}, none⟩ d = false) ∧
    (∀ (now : Int) (o : FetchOutcome) (δ : Int) (d : Nat → Bool),
      (checkAccessTokenStep ⟨none, none, {}, none⟩ now
          (quitReady ⟨none, none, {}, none⟩ d) o δ).1 = .faulted nilDerefMsg) := by
  refine ⟨rfl, rfl, fun d => rfl, fun now o δ d => ?_⟩
  simp [checkAccessTokenStep, quitReady]

/-- Claim C7. One iteration of `checkAccessToken` (lines 58-75), with the
quit receive not ready: if the seconds remaining until the stored expiry
exceed the expiry delta, the iteration sleeps for exactly the remaining
seconds minus the delta, fetches nothing and changes nothing; if they are
at or below the delta, it performs the fetch — a fetch error is logged
(recorded in the action) and neither stops the loop nor sleeps, so the next
attempt is the immediately following iteration, and a fetch success
installs the new state. -/
theorem c7_loop_iteration (t : TokenUpdater) (now : Int) (o : FetchOutcome)
    (δ : Int) (e : Int) (h : t.ExpireTimestamp = some e) :
    (δ < secondsUntilExpired e now →
      checkAccessTokenStep t now false o δ =
        (.sleep (secondsUntilExpired e now - δ), t)) ∧
    (secondsUntilExpired e now ≤ δ →
      (∀ m, fetchNewToken t now o = .err m →
        checkAccessTokenStep t now false o δ = (.fetched (some m), t)) ∧
      (∀ t₁, fetchNewToken t now o = .ok t₁ →
        checkAccessTokenStep t now false o δ = (.fetched none, t₁))) := by
  unfold checkAccessTokenStep
  rw [h]
  simp only [if_false, Bool.false_eq_true]
  constructor
  · intro hgt
    rw [if_neg (by omega)]
  · intro hle
    rw [if_pos hle]
    constructor
    · intro m hm
      rw [hm]
    · intro t₁ ht₁
      rw [ht₁]

/-- Claim C7, witness: expiry 1000 seconds away, delta 300 — the iteration
sleeps exactly 700 seconds and leaves the state unchanged. -/
theorem c7_loop_iteration_witness :
    (⟨some (some "tok"), some 1000, {}, none⟩ : TokenUpdater).ExpireTimestamp =
      some 1000 ∧
    (300 : Int) < secondsUntilExpired 1000 0 ∧
    checkAccessTokenStep ⟨some (some "tok"), some 1000, {}, none⟩ 0 false
        (.httpErr "x") 300 =
      (.sleep 700, ⟨some (some "tok"), some 1000, {}, none⟩) :=
  ⟨rfl, by decide,
    (c7_loop_iteration ⟨some (some "tok"), some 1000, {}, none⟩ 0
      (.httpErr "x") 300 1000 rfl).1 (by decide)⟩

/-- Claim C8. For every executed call and transport response, a returned
`CallResponse` never has both the success payload and the error list
populated, and has both absent exactly when the transport returned an empty
body with a non-error (2xx) status. (A transport error or a decode failure
returns a hard error and no `CallResponse` at all.) -/
theorem c8_response_exclusivity (T : Type) (parseErrs : Bool)
    (tr : TransportResult) (dT : ByteStr → Option T)
    (dE : ByteStr → Option ErrorList) (r : CallResponse T)
    (h : Execute T parseErrs tr dT dE = .ok r) :
    (r.ResponseBody.isSome = true → r.ErrorList.isSome = false) ∧
    ((r.ResponseBody = none ∧ r.ErrorList = none) ↔
      ∃ status, tr = .resp status [] ∧ 200 ≤ status ∧ status < 300) := by
  rcases tr with e | ⟨status, body⟩
  · simp [Execute] at h
  · by_cases h2 : 200 ≤ status ∧ status < 300
    · by_cases hb : body = []
      · subst hb
        simp [Execute, h2] at h
        subst h
        refine ⟨by simp, ?_⟩
        constructor
        · intro _
          exact ⟨status, rfl, h2.1, h2.2⟩
        · intro _
          exact ⟨rfl, rfl⟩
      · rcases hdT : dT body with _ | v
        · simp [Execute, h2, hb, hdT] at h
        · simp [Execute, h2, hb, hdT] at h
          subst h
          refine ⟨by simp, ?_⟩
          constructor
          · rintro ⟨hnone, -⟩
            simp at hnone
          · rintro ⟨s', hs', -, -⟩
            injection hs' with _ hbody
            exact absurd hbody hb
    · by_cases hp : parseErrs = true
      · rcases hdE : dE body with _ | l
        · simp [Execute, h2, hp, hdE] at h
        · simp [Execute, h2, hp, hdE] at h
          subst h
          refine ⟨by simp, ?_⟩
          constructor
          · rintro ⟨-, hnone⟩
            simp at hnone
          · rintro ⟨s', hs', hs1, hs2⟩
            injection hs' with hstat _
            exact absurd ⟨by omega, by omega⟩ h2
      · simp [Execute, h2, hp] at h

/-- Claim C8, witness: a 204 response with an empty body yields a
`CallResponse` with both fields absent. -/
theorem c8_response_exclusivity_witness :
    Execute Nat true (.resp 204 []) (fun _ => none) (fun _ => none) =
      .ok {} ∧
    (({} : CallResponse Nat).ResponseBody = none ∧
      ({} : CallResponse Nat).ErrorList = none) :=
  ⟨rfl, (c8_response_exclusivity Nat true (.resp 204 []) (fun _ => none)
    (fun _ => none) {} rfl).2.mpr ⟨204, rfl, by omega, by omega⟩⟩

/-- Claim C9. The URL handed to the transport is the endpoint base joined
with the supplied path; with no query parameters nothing (in particular no
`?`, byte 63) is appended, and with parameters a `?` and the
percent-encoded query string are appended, which decodes back to exactly
the supplied key/value pairs in insertion order. -/
theorem c9_url_composition (base path : ByteStr)
    (params : List (ByteStr × ByteStr)) (hwf : paramsWF params) :
    (params = [] →
      composeURL base path params = base ++ path ∧
      (63 ∉ base → 63 ∉ path → 63 ∉ composeURL base path params)) ∧
    (params ≠ [] →
      composeURL base path params =
        base ++ path ++ 63 :: encodeQuery params ∧
      parseQuery (encodeQuery params) = some params) := by
  constructor
  · rintro rfl
    refine ⟨by simp [composeURL], ?_⟩
    intro hb hp
    simp [composeURL, hb, hp]
  · intro hne
    refine ⟨?_, parseQuery_encodeQuery params hne hwf⟩
    simp [composeURL, List.isEmpty_iff, hne]

/-- Claim C9, witness: the URL of the "Post body with queryParam" test case
— path `/message` with query `final=true` against the North America
endpoint. -/
theorem c9_url_composition_witness :
    paramsWF [(strBytes "final", strBytes "true")] ∧
    [(strBytes "final", strBytes "true")] ≠
      ([] : List (ByteStr × ByteStr)) ∧
    composeURL (strBytes "https://sellingpartnerapi-na.amazon.com")
        (strBytes "/message") [(strBytes "final", strBytes "true")] =
      strBytes "https://sellingpartnerapi-na.amazon.com" ++
        strBytes "/message" ++
        63 :: encodeQuery [(strBytes "final", strBytes "true")] ∧
    parseQuery (encodeQuery [(strBytes "final", strBytes "true")]) =
      some [(strBytes "final", strBytes "true")] ∧
    composeURL (strBytes "https://sellingpartnerapi-na.amazon.com")
        (strBytes "/message") [(strBytes "final", strBytes "true")] =
      strBytes "https://sellingpartnerapi-na.amazon.com/message?final=true" := by
  have h := (c9_url_composition
    (strBytes "https://sellingpartnerapi-na.amazon.com")
    (strBytes "/message") [(strBytes "final", strBytes "true")]
    (by unfold paramsWF; decide)).2 (by decide)
  exact ⟨by unfold paramsWF; decide, by decide, h.1, h.2, by decide⟩

/-- Claim C10, counterexample. The state `NewTokenUpdater` hands back when
every fetch so far carried an empty access token has a nil `accessToken`
pointer, so `GetAccessToken` faults with a nil-pointer dereference at the
`Load` on line 78 — it does not return the string "<nil>" (that would
require the `atomic.Value` cell to exist with nothing stored in it). -/
theorem c10_counterexample :
    NewTokenUpdater {} 7 (.parsed ⟨"", "", 0, "", "access_denied", "denied"⟩) =
      .ok ⟨none, none, {}, none⟩ ∧
    GetAccessToken ⟨none, none, {}, none⟩ = .fault nilDerefMsg ∧
    decide (GetAccessToken ⟨none, none, {}, none⟩ = .ok "<nil>") = false := by
  refine ⟨rfl, rfl, ?_⟩
  decide

/-- Claim C10, amended. If no access token has ever been published, a call
to `GetAccessToken` on the updater the constructor returned does not
produce any string: the `accessToken` cell pointer was never allocated, so
the atomic load faults with a nil-pointer dereference. -/
theorem c10_unset_token_faults (config : TokenUpdaterConfig) (now : Int)
    (r : AccessTokenResponse) (t : TokenUpdater) (h : r.AccessToken = "")
    (hc : NewTokenUpdater config now (.parsed r) = .ok t) :
    GetAccessToken t = .fault nilDerefMsg := by
  unfold NewTokenUpdater at hc
  rw [fetchNewToken_empty_token (initialUpdater config) now r h] at hc
  cases hc
  rfl

/-- Claim C10 amended, witness. -/
theorem c10_unset_token_faults_witness :
    (⟨"", "", 0, "", "access_denied", "nope"⟩ : AccessTokenResponse).AccessToken = "" ∧
    NewTokenUpdater {} 3 (.parsed ⟨"", "", 0, "", "access_denied", "nope"⟩) =
      .ok ⟨none, none, {}, none⟩ ∧
    GetAccessToken ⟨none, none, {}, none⟩ = .fault nilDerefMsg :=
  ⟨rfl, rfl,
    c10_unset_token_faults {} 3 ⟨"", "", 0, "", "access_denied", "nope"⟩
      ⟨none, none, {}, none⟩ rfl rfl⟩

end SpApi
